import Mathlib

/-!
Verification of the OpenDevin fragment consisting of
`openhands/events/event.py` (the `Event` base type) and
`openhands/memory/memory.py` (`LongTermMemory`, its retry wrapper around
the embedding call, and its semaphore-bounded background insertion).

The Python code is shallowly embedded: attribute-presence-checked backing
fields become `Option`-typed record fields, the tenacity retry decorator
becomes an explicit attempt loop returning the result together with the
number of attempts made, and the thread/semaphore behaviour of `_add_doc`
becomes a small labelled transition system over task phases.
-/

namespace OpenDevin

/- ------------------------------------------------------------------ -/
/- Embedding of src/openhands/events/event.py                          -/
/- ------------------------------------------------------------------ -/

/-- `EventSource(str, Enum)` with members AGENT = 'agent', USER = 'user'. -/
inductive EventSource
  | AGENT
  | USER
deriving DecidableEq, Repr

/-- The string value carried by each `EventSource` member. -/
def EventSource.value : EventSource → String
  | .AGENT => "agent"
  | .USER => "user"

/-- The `Event` dataclass of `event.py`.  Each Python backing field
(`_message`, `_id`, ...) may be absent (`hasattr` is false) or present with
a stored value; an outer `Option` records presence, and fields whose Python
type admits `None` store an inner `Option` for the value.  The `blocking`
attribute is likewise optionally present (it is supplied by concrete
subclasses, not by `Event` itself). -/
structure Event where
  msgF : Option (Option String)
  idF : Option Int
  timestampF : Option (Option String)
  sourceF : Option (Option EventSource)
  causeF : Option (Option Int)
  timeoutF : Option (Option Int)
  blocking : Option Bool
deriving DecidableEq, Repr

/-- `Event.message` property: `self._message` when set, else `''`. -/
def Event.message (e : Event) : Option String :=
  match e.msgF with
  | some v => v
  | none => some ""

/-- `Event.id` property: `self._id` when set, else `-1`. -/
def Event.id (e : Event) : Int :=
  match e.idF with
  | some v => v
  | none => -1

/-- `Event.timestamp` property: `self._timestamp` when set, else `None`. -/
def Event.timestamp (e : Event) : Option String :=
  match e.timestampF with
  | some v => v
  | none => none

/-- `Event.source` property: `self._source` when set, else `None`. -/
def Event.source (e : Event) : Option EventSource :=
  match e.sourceF with
  | some v => v
  | none => none

/-- `Event.cause` property: `self._cause` when set, else `None`. -/
def Event.cause (e : Event) : Option Int :=
  match e.causeF with
  | some v => v
  | none => none

/-- `Event.timeout` property: `self._timeout` when set, else `None`. -/
def Event.timeout (e : Event) : Option Int :=
  match e.timeoutF with
  | some v => v
  | none => none

/-- The `timeout` setter: store the value in `self._timeout`, then, if the
instance has a `blocking` attribute, set `blocking` to `True`. -/
def Event.setTimeout (e : Event) (value : Option Int) : Event :=
  let e' := { e with timeoutF := some value }
  match e'.blocking with
  | some _ => { e' with blocking := some true }
  | none => e'

/- ------------------------------------------------------------------ -/
/- Embedding of src/openhands/memory/memory.py: the retry wrapper      -/
/- ------------------------------------------------------------------ -/

/-- The exception classes that can escape the provider's embedding call:
the three classes imported from `openai._exceptions` plus any other class. -/
inductive ApiError
  | RateLimitError
  | APIConnectionError
  | InternalServerError
  | OtherError (name : String)
deriving DecidableEq, Repr

/-- `retry_if_exception_type((RateLimitError, APIConnectionError,
InternalServerError))`: which error classes the decorator retries on. -/
def retryOn : ApiError → Bool
  | .RateLimitError => true
  | .APIConnectionError => true
  | .InternalServerError => true
  | .OtherError _ => false

/-- `num_retries: int = 10`, the default attempt cap of the wrapper. -/
def num_retries : Nat := 10

/-- `retry_min_wait: int = 3`. -/
def retry_min_wait : Nat := 3

/-- `retry_max_wait: int = 300`. -/
def retry_max_wait : Nat := 300

/-- The upper bound tenacity's `wait_random_exponential(min=retry_min_wait,
max=retry_max_wait)` computes for the wait after a given attempt: the
exponential `2 ^ attempt`, clamped between the configured minimum and
maximum; the actual wait is drawn uniformly at random from `[0, bound]`. -/
def wait_random_exponential_bound (mi ma attempt : Nat) : Nat :=
  max mi (min (2 ^ attempt) ma)

/-- One provider behaviour: the outcome of the embedding call on each
attempt number (attempts are numbered from 1, as in tenacity). -/
def Provider (α : Type) := Nat → Except ApiError α

/-- The attempt loop of the `@retry(reraise=True,
stop=stop_after_attempt(num_retries), ...)` decorator: call the wrapped
function; on success return; on a failure, retry only while fuel remains
and the error class is in `retryOn`, otherwise re-raise the error of the
current (final) attempt.  Returns the outcome together with the number of
attempts that were made. -/
def retryAttempts (f : Provider α) : Nat → Nat → Except ApiError α × Nat
  | 0, k =>
    match f k with
    | .ok v => (.ok v, k)
    | .error e => (.error e, k)
  | fuel + 1, k =>
    match f k with
    | .ok v => (.ok v, k)
    | .error e =>
      if retryOn e then retryAttempts f fuel (k + 1) else (.error e, k)

/-- `wrapper_get_embeddings`: the embedding call wrapped by the retry
decorator, making at most `num_retries` attempts starting from attempt 1. -/
def wrapper_get_embeddings (f : Provider α) : Except ApiError α × Nat :=
  retryAttempts f (num_retries - 1) 1

/- ------------------------------------------------------------------ -/
/- Embedding of LongTermMemory                                         -/
/- ------------------------------------------------------------------ -/

/-- Modelled from the spec: `openhands.core.utils.json` (not under `src/`)
serializes the whole event mapping to text; modelled as the standard JSON
object rendering of a string-valued mapping, in key order. -/
def json_dumps (event : List (String × String)) : String :=
  "\x7b" ++
    String.intercalate ", "
      (event.map fun p => "\"" ++ p.1 ++ "\": \"" ++ p.2 ++ "\"") ++
  "\x7d"

/-- The llama-index `Document` built by `add_event`: `text`, `doc_id`, and
the `extra_info` mapping with keys `type`, `id` and `idx`. -/
structure Document where
  text : String
  doc_id : String
  type : String
  id : String
  idx : Nat
deriving DecidableEq, Repr

/-- A retrieval result (llama-index `NodeWithScore`): an external object
exposing `get_text()`. -/
structure NodeWithScore where
  node_text : String
deriving DecidableEq, Repr

/-- `r.get_text()`. -/
def NodeWithScore.get_text (r : NodeWithScore) : String := r.node_text

/-- The state of a `LongTermMemory` instance: the semaphore's permit count
(`self.sema = threading.Semaphore(value=memory_max_threads)`), the sequence
counter `self.thought_idx`, and the documents handed off so far to
`_add_doc` background threads, in hand-off order (standing in for the
index contents plus `self._add_threads`). -/
structure LongTermMemory where
  permits : Nat
  thought_idx : Nat
  docs : List Document
deriving DecidableEq, Repr

/-- The error message of the `ImportError` raised by
`LongTermMemory.__init__` when llama-index is unavailable. -/
def importErrorMsg : String :=
  "llama_index and its dependencies are not installed. " ++
  "To use LongTermMemory, please run: poetry install --with llama-index"

/-- `LongTermMemory.__init__(llm_config, memory_max_threads=1)`: raise
`ImportError` if `LLAMA_INDEX_AVAILABLE` is false, before any other
effect; otherwise set up the store with the semaphore at
`memory_max_threads` permits, `thought_idx = 0` and no pending threads. -/
def LongTermMemory.init (llama_index_available : Bool)
    (memory_max_threads : Nat := 1) : Except String LongTermMemory :=
  if llama_index_available then
    .ok { permits := memory_max_threads, thought_idx := 0, docs := [] }
  else
    .error importErrorMsg

/-- The `if 'action' in event ... elif 'observation' in event ...` block of
`add_event`: the kind tag `t` and source `id`, both initialized to `''`. -/
def eventTag (event : List (String × String)) : String × String :=
  match event.lookup "action" with
  | some v => ("action", v)
  | none =>
    match event.lookup "observation" with
    | some v => ("observation", v)
    | none => ("", "")

/-- The `Document(...)` built by `add_event` from the event mapping and the
current `thought_idx`. -/
def buildDoc (event : List (String × String)) (thought_idx : Nat) :
    Document :=
  { text := json_dumps event
  , doc_id := toString thought_idx
  , type := (eventTag event).1
  , id := (eventTag event).2
  , idx := thought_idx }

/-- `LongTermMemory.add_event(event)`: build the document from the current
`thought_idx`, increment the counter, and hand the document to a background
`_add_doc` thread (recorded by appending it to `docs`).  Returns without
waiting for the insertion. -/
def LongTermMemory.add_event (m : LongTermMemory)
    (event : List (String × String)) : LongTermMemory :=
  { m with
      thought_idx := m.thought_idx + 1
    , docs := m.docs ++ [buildDoc event m.thought_idx] }

/-- Repeated `add_event` calls, in call order. -/
def LongTermMemory.add_events (m : LongTermMemory)
    (events : List (List (String × String))) : LongTermMemory :=
  events.foldl LongTermMemory.add_event m

/-- `VectorIndexRetriever(index=self.index, similarity_top_k=k)` followed
by `.retrieve(query)`: the external index returns its ranked results for
the query, truncated to the top `k`.  The ranking itself is the external
library's (a parameter `ranked` of the model). -/
def VectorIndexRetriever.retrieve
    (ranked : List Document → String → List NodeWithScore)
    (docs : List Document) (similarity_top_k : Nat) (query : String) :
    List NodeWithScore :=
  (ranked docs query).take similarity_top_k

/-- `LongTermMemory.search(query, k=10)`: build a retriever with
`similarity_top_k = k`, retrieve, and return `[r.get_text() for r in
results]`. -/
def LongTermMemory.search (m : LongTermMemory)
    (ranked : List Document → String → List NodeWithScore)
    (query : String) (k : Nat := 10) : List String :=
  (VectorIndexRetriever.retrieve ranked m.docs k query).map
    NodeWithScore.get_text

/- ------------------------------------------------------------------ -/
/- The semaphore-bounded insertion scheme of `_add_doc`                -/
/- ------------------------------------------------------------------ -/

/-- The phase of one background `_add_doc` thread: spawned but not yet
holding a permit (`waiting`, before `with self.sema` succeeds), executing
`self.index.insert(doc)` while holding a permit (`inserting`), or finished
with the permit released (`done`). -/
inductive AddDocPhase
  | waiting
  | inserting
  | done
deriving DecidableEq, Repr

/-- A snapshot of the insertion machinery: free permits of `self.sema` and
the phases of the spawned `_add_doc` threads. -/
structure SemState where
  free : Nat
  tasks : List AddDocPhase
deriving DecidableEq, Repr

/-- How many `_add_doc` threads are currently executing the index write. -/
def countInserting (ts : List AddDocPhase) : Nat :=
  ts.count AddDocPhase.inserting

/-- The interleaved small-step behaviour of `add_event` / `_add_doc`:
`spawn` is `thread.start()` inside `add_event`; `acquire` is a waiting
thread entering `with self.sema` (only when a permit is free), and
`release` is a thread leaving the `with` block after its insert. -/
inductive SemStep : SemState → SemState → Prop
  | spawn (p : Nat) (ts : List AddDocPhase) :
      SemStep ⟨p, ts⟩ ⟨p, ts ++ [AddDocPhase.waiting]⟩
  | acquire (p : Nat) (pre post : List AddDocPhase) :
      SemStep ⟨p + 1, pre ++ AddDocPhase.waiting :: post⟩
        ⟨p, pre ++ AddDocPhase.inserting :: post⟩
  | release (p : Nat) (pre post : List AddDocPhase) :
      SemStep ⟨p, pre ++ AddDocPhase.inserting :: post⟩
        ⟨p + 1, pre ++ AddDocPhase.done :: post⟩

/-- States reachable from a `LongTermMemory` constructed with
`memory_max_threads = n`: the semaphore starts with `n` free permits and no
threads have been spawned. -/
inductive SemReachable (n : Nat) : SemState → Prop
  | init : SemReachable n ⟨n, []⟩
  | step {s s' : SemState} : SemReachable n s → SemStep s s' →
      SemReachable n s'

/- ------------------------------------------------------------------ -/
/- Theorems                                                            -/
/- ------------------------------------------------------------------ -/

/-- Claim C7: on any `Event` whose backing field is unset, each read
accessor returns its documented default (`message` returns empty text,
`id` returns `-1`, and `timestamp`, `source`, `cause`, `timeout` return
absent), and whenever the backing field is set the accessor returns the
stored value. -/
theorem event_accessors_defaults_and_stored (e : Event) :
    (e.msgF = none → e.message = some "")
  ∧ (∀ v, e.msgF = some v → e.message = v)
  ∧ (e.idF = none → e.id = -1)
  ∧ (∀ v, e.idF = some v → e.id = v)
  ∧ (e.timestampF = none → e.timestamp = none)
  ∧ (∀ v, e.timestampF = some v → e.timestamp = v)
  ∧ (e.sourceF = none → e.source = none)
  ∧ (∀ v, e.sourceF = some v → e.source = v)
  ∧ (e.causeF = none → e.cause = none)
  ∧ (∀ v, e.causeF = some v → e.cause = v)
  ∧ (e.timeoutF = none → e.timeout = none)
  ∧ (∀ v, e.timeoutF = some v → e.timeout = v) := by
  refine ⟨?_, ?_, ?_, ?_, ?_, ?_, ?_, ?_, ?_, ?_, ?_, ?_⟩ <;>
    first
    | (intro h
       simp [Event.message, Event.id, Event.timestamp, Event.source,
         Event.cause, Event.timeout, h])
    | (intro v h
       simp [Event.message, Event.id, Event.timestamp, Event.source,
         Event.cause, Event.timeout, h])

/-- Witness for C7 at concrete events: a fully-unset event yields the
defaults, and set backing fields are returned as stored. -/
theorem event_accessors_witness :
    (Event.mk none none none none none none none).message = some ""
  ∧ (Event.mk none none none none none none none).id = -1
  ∧ (Event.mk none none none none none none none).timeout = none
  ∧ (Event.mk none (some 7) none none none none none).id = 7
  ∧ (Event.mk (some (some "hi")) none none none none none none).message
      = some "hi" :=
  ⟨(event_accessors_defaults_and_stored _).1 rfl,
   (event_accessors_defaults_and_stored _).2.2.1 rfl,
   (event_accessors_defaults_and_stored _).2.2.2.2.2.2.2.2.2.2.1 rfl,
   (event_accessors_defaults_and_stored _).2.2.2.1 7 rfl,
   (event_accessors_defaults_and_stored _).2.1 (some "hi") rfl⟩

/-- Claim C8: the `timeout` setter stores the value; it sets `blocking` to
true exactly when the instance has a `blocking` attribute (when there is no
such attribute nothing is raised and the side effect is skipped); and every
other field of the instance is left unchanged. -/
theorem timeout_setter_spec (e : Event) (value : Option Int) :
    ((e.setTimeout value).timeoutF = some value)
  ∧ ((∃ b, e.blocking = some b) →
       (e.setTimeout value).blocking = some true)
  ∧ (e.blocking = none →
       e.setTimeout value = { e with timeoutF := some value })
  ∧ ((e.setTimeout value).msgF = e.msgF
   ∧ (e.setTimeout value).idF = e.idF
   ∧ (e.setTimeout value).timestampF = e.timestampF
   ∧ (e.setTimeout value).sourceF = e.sourceF
   ∧ (e.setTimeout value).causeF = e.causeF) := by
  cases hb : e.blocking with
  | none =>
      refine ⟨?_, ?_, ?_, ?_, ?_, ?_, ?_, ?_⟩ <;>
        simp [Event.setTimeout, hb]
  | some b =>
      refine ⟨?_, ?_, ?_, ?_, ?_, ?_, ?_, ?_⟩ <;>
        simp [Event.setTimeout, hb]

/-- Witness for C8: setting the timeout on a concrete event that has a
`blocking` attribute sets `blocking` to true, and on a concrete event
without one it leaves the event otherwise unchanged. -/
theorem timeout_setter_witness :
    ((Event.mk none none none none none none (some false)).setTimeout
        (some 30)).blocking = some true
  ∧ (Event.mk none none none none none none none).setTimeout (some 30)
      = Event.mk none none none none none (some (some 30)) none :=
  ⟨(timeout_setter_spec (Event.mk none none none none none none
      (some false)) (some 30)).2.1 ⟨false, rfl⟩,
   (timeout_setter_spec (Event.mk none none none none none none none)
      (some 30)).2.2.1 rfl⟩

/-- Claim C10 (implicit): on an event with a `blocking` attribute,
assigning `None` to `timeout` still sets `blocking` to true — the side
effect depends only on the attribute's presence, not on the value stored —
and afterwards the `timeout` accessor returns `None`. -/
theorem clear_timeout_sets_blocking (e : Event) (b : Bool)
    (h : e.blocking = some b) :
    (e.setTimeout none).blocking = some true
  ∧ (e.setTimeout none).timeout = none
  ∧ (∀ v : Int, (e.setTimeout (some v)).blocking = some true) := by
  refine ⟨?_, ?_, ?_⟩ <;> simp [Event.setTimeout, Event.timeout, h]

/-- Witness for C10: clearing the timeout on a concrete event carrying a
`blocking` attribute sets `blocking` to true and leaves `timeout` absent. -/
theorem clear_timeout_witness :
    ((Event.mk none none none none none (some (some 9))
        (some false)).setTimeout none).blocking = some true
  ∧ ((Event.mk none none none none none (some (some 9))
        (some false)).setTimeout none).timeout = none :=
  ⟨(clear_timeout_sets_blocking _ false rfl).1,
   (clear_timeout_sets_blocking _ false rfl).2.1⟩

/-- After `add_events`, the counter has advanced by one per call. -/
lemma add_events_thought_idx (events : List (List (String × String)))
    (m : LongTermMemory) :
    (m.add_events events).thought_idx = m.thought_idx + events.length := by
  induction events generalizing m with
  | nil => simp [LongTermMemory.add_events]
  | cons ev evs ih =>
      have h := ih (m.add_event ev)
      simp only [LongTermMemory.add_events, List.foldl_cons] at h ⊢
      rw [h]
      simp [LongTermMemory.add_event]
      omega

/-- If the documents so far are stamped `0, 1, ...` up to the counter, the
same holds after any further sequence of `add_event` calls. -/
lemma add_events_idx_inv (events : List (List (String × String)))
    (m : LongTermMemory)
    (h : m.docs.map Document.idx = List.range m.thought_idx) :
    (m.add_events events).docs.map Document.idx
      = List.range (m.add_events events).thought_idx := by
  induction events generalizing m with
  | nil => simpa [LongTermMemory.add_events] using h
  | cons ev evs ih =>
      simp only [LongTermMemory.add_events, List.foldl_cons] at ih ⊢
      apply ih
      simp [LongTermMemory.add_event, buildDoc, h, List.range_succ]

/-- Claim C3: `n` calls to `add_event` on a freshly constructed store
assign sequence indices `0, 1, ..., n-1` in call order (the counter starts
at 0 and advances by one per call), independently of when the background
insertions complete (stamping happens synchronously inside `add_event`). -/
theorem add_event_sequence_indices (memory_max_threads : Nat)
    (events : List (List (String × String))) :
    ((LongTermMemory.mk memory_max_threads 0 []).add_events events).docs.map
        Document.idx
      = List.range events.length
  ∧ ((LongTermMemory.mk memory_max_threads 0 []).add_events
        events).thought_idx = events.length := by
  have hidx := add_events_thought_idx events
    (LongTermMemory.mk memory_max_threads 0 [])
  have hinv := add_events_idx_inv events
    (LongTermMemory.mk memory_max_threads 0 []) (by simp)
  simp only [hidx] at hinv
  exact ⟨by simpa using hinv, by simpa using hidx⟩

/-- Counterexample for C4 as stated: on `{"action": "run_command"}` the
kind tag recorded is the key name `"action"`, not the key's value
`"run_command"`; so the value is not recorded as both the kind tag and the
source id. -/
theorem kind_tag_is_key_name_not_value :
    (((LongTermMemory.mk 1 0 []).add_event
        [("action", "run_command")]).docs.map Document.type = ["action"])
  ∧ "action" ≠ "run_command" := by
  constructor
  · rfl
  · decide

/-- Claim C4 (amended): `add_event` checks first for an `"action"` key and
then for an `"observation"` key; if one is present it records that key's
NAME as the kind tag and that key's VALUE as the source id of the document;
if neither is present both are left as empty text. -/
theorem kind_tag_selection (event : List (String × String))
    (m : LongTermMemory) :
    ((m.add_event event).docs = m.docs ++ [buildDoc event m.thought_idx])
  ∧ (∀ v, event.lookup "action" = some v →
       (buildDoc event m.thought_idx).type = "action"
     ∧ (buildDoc event m.thought_idx).id = v)
  ∧ (event.lookup "action" = none →
       ∀ v, event.lookup "observation" = some v →
         (buildDoc event m.thought_idx).type = "observation"
       ∧ (buildDoc event m.thought_idx).id = v)
  ∧ (event.lookup "action" = none → event.lookup "observation" = none →
       (buildDoc event m.thought_idx).type = ""
     ∧ (buildDoc event m.thought_idx).id = "") := by
  refine ⟨rfl, ?_, ?_, ?_⟩
  · intro v hv
    simp [buildDoc, eventTag, hv]
  · intro ha v hv
    simp [buildDoc, eventTag, ha, hv]
  · intro ha ho
    simp [buildDoc, eventTag, ha, ho]

/-- Witness for the amended C4 at concrete inputs covering all three
branches. -/
theorem kind_tag_selection_witness :
    ((buildDoc [("action", "run_command")] 0).type = "action"
   ∧ (buildDoc [("action", "run_command")] 0).id = "run_command")
  ∧ ((buildDoc [("observation", "output: ok")] 1).type = "observation"
   ∧ (buildDoc [("observation", "output: ok")] 1).id = "output: ok")
  ∧ ((buildDoc [("note", "x")] 2).type = ""
   ∧ (buildDoc [("note", "x")] 2).id = "") :=
  ⟨(kind_tag_selection [("action", "run_command")]
      (LongTermMemory.mk 1 0 [])).2.1 "run_command" rfl,
   (kind_tag_selection [("observation", "output: ok")]
      (LongTermMemory.mk 1 1 [])).2.2.1 rfl "output: ok" rfl,
   (kind_tag_selection [("note", "x")]
      (LongTermMemory.mk 1 2 [])).2.2.2 rfl rfl⟩

/-- Claim C5: every `add_event` call builds exactly one document whose body
is the whole mapping serialized verbatim, and on a fresh store the calls
`add_event({"action": "run_command"})` then
`add_event({"observation": "output: ok"})` produce documents whose
`(type, id, idx)` metadata are `("action", "run_command", 0)` and
`("observation", "output: ok", 1)`. -/
theorem add_event_builds_one_document :
    (∀ (m : LongTermMemory) (event : List (String × String)),
        (m.add_event event).docs.length = m.docs.length + 1
      ∧ (m.add_event event).docs.getLast?
          = some (buildDoc event m.thought_idx)
      ∧ (buildDoc event m.thought_idx).text = json_dumps event)
  ∧ ((((LongTermMemory.mk 1 0 []).add_event
        [("action", "run_command")]).add_event
        [("observation", "output: ok")]).docs.map
          (fun d => (d.type, d.id, d.idx))
      = [("action", "run_command", 0), ("observation", "output: ok", 1)]) := by
  constructor
  · intro m event
    refine ⟨?_, ?_, rfl⟩
    · simp [LongTermMemory.add_event]
    · simp [LongTermMemory.add_event]
  · rfl

/-- Claim C9: constructing a `LongTermMemory` yields the missing-dependency
`ImportError` exactly when the llama-index stack is unavailable, before any
other effect; when the stack is available it yields the fresh store with
the configured permit count, counter 0 and no pending work. -/
theorem init_import_error (memory_max_threads : Nat) :
    LongTermMemory.init false memory_max_threads
      = Except.error importErrorMsg
  ∧ LongTermMemory.init true memory_max_threads
      = Except.ok (LongTermMemory.mk memory_max_threads 0 []) :=
  ⟨rfl, rfl⟩

/-- Claim C6: `search(query, k)` returns exactly the text bodies of the
results of the index's similarity retrieval with `similarity_top_k = k`,
one text per result in the index's order; hence at most `k` results; and
`k` defaults to 10. -/
theorem search_returns_topk_texts (m : LongTermMemory)
    (ranked : List Document → String → List NodeWithScore)
    (query : String) (k : Nat) :
    (∀ i : Nat, (m.search ranked query k)[i]?
        = ((VectorIndexRetriever.retrieve ranked m.docs k query)[i]?).map
            NodeWithScore.get_text)
  ∧ (m.search ranked query k).length
      = (VectorIndexRetriever.retrieve ranked m.docs k query).length
  ∧ (m.search ranked query k).length ≤ k
  ∧ m.search ranked query = m.search ranked query 10 := by
  refine ⟨?_, ?_, ?_, rfl⟩
  · intro i
    simp [LongTermMemory.search]
  · simp [LongTermMemory.search]
  · simp only [LongTermMemory.search, VectorIndexRetriever.retrieve,
      List.length_map]
    exact le_trans (List.length_take_le _ _) le_rfl

/-- A non-retryable error is re-raised immediately, whatever fuel is
left. -/
lemma retryAttempts_not_retryable {α : Type} (f : Provider α)
    (fuel k : Nat) (e : ApiError) (he : f k = .error e)
    (hr : retryOn e = false) :
    retryAttempts f fuel k = (.error e, k) := by
  cases fuel <;> simp [retryAttempts, he, hr]

/-- If every attempt in the window fails with a retryable error, the loop
runs the whole window and re-raises the last attempt's error. -/
lemma retryAttempts_all_fail {α : Type} (f : Provider α) (fuel : Nat) :
    ∀ k : Nat,
      (∀ j, k ≤ j → j ≤ k + fuel →
        ∃ e, f j = .error e ∧ retryOn e = true) →
      ∃ e, f (k + fuel) = .error e
        ∧ retryAttempts f fuel k = (.error e, k + fuel) := by
  induction fuel with
  | zero =>
      intro k h
      obtain ⟨e, he, hr⟩ := h k le_rfl (by omega)
      exact ⟨e, by simpa using he, by simp [retryAttempts, he]⟩
  | succ fuel ih =>
      intro k h
      obtain ⟨e, he, hr⟩ := h k le_rfl (by omega)
      obtain ⟨e', he', hw⟩ := ih (k + 1)
        (fun j hj1 hj2 => h j (by omega) (by omega))
      have harith : k + 1 + fuel = k + (fuel + 1) := by omega
      rw [harith] at he' hw
      exact ⟨e', he', by simp only [retryAttempts, he, hr, if_true, hw]⟩

/-- The number of the attempt the loop stops at lies in the window. -/
lemma retryAttempts_attempt_bounds {α : Type} (f : Provider α)
    (fuel : Nat) : ∀ k : Nat,
      k ≤ (retryAttempts f fuel k).2
    ∧ (retryAttempts f fuel k).2 ≤ k + fuel := by
  induction fuel with
  | zero =>
      intro k
      cases hf : f k <;> simp [retryAttempts, hf]
  | succ fuel ih =>
      intro k
      have h := ih (k + 1)
      cases hf : f k with
      | ok v => simp [retryAttempts, hf]
      | error e =>
          cases hr : retryOn e with
          | false => simp [retryAttempts, hf, hr]
          | true =>
              simp only [retryAttempts, hf, hr, if_true]
              omega

/-- Claim C1: the embedding call is wrapped by the retry decorator; if all
`num_retries = 10` attempts fail with retryable errors (rate-limit,
connection, internal-server) the final attempt's error is re-raised after
exactly 10 attempts; an error of any other class propagates immediately on
the first attempt; the loop never makes more than `num_retries` attempts;
and the retried classes are exactly the three transient ones. -/
theorem wrapper_retry_policy {α : Type} (f : Provider α) :
    ((∀ j, 1 ≤ j → j ≤ num_retries →
        ∃ e, f j = .error e ∧ retryOn e = true) →
      ∃ e, f num_retries = .error e
        ∧ wrapper_get_embeddings f = (.error e, num_retries))
  ∧ (∀ e, f 1 = .error e → retryOn e = false →
      wrapper_get_embeddings f = (.error e, 1))
  ∧ (1 ≤ (wrapper_get_embeddings f).2
   ∧ (wrapper_get_embeddings f).2 ≤ num_retries)
  ∧ (∀ e, retryOn e = true ↔
      (e = ApiError.RateLimitError ∨ e = ApiError.APIConnectionError
       ∨ e = ApiError.InternalServerError)) := by
  refine ⟨?_, ?_, ?_, ?_⟩
  · intro h
    have hwin := retryAttempts_all_fail f 9 1
      (fun j hj1 hj2 => h j hj1 (by simp only [num_retries]; omega))
    simpa [wrapper_get_embeddings, num_retries] using hwin
  · intro e he hr
    simpa [wrapper_get_embeddings, num_retries] using
      retryAttempts_not_retryable f 9 1 e he hr
  · have h := retryAttempts_attempt_bounds f (num_retries - 1) 1
    exact ⟨h.1, le_trans h.2 (by decide)⟩
  · intro e
    cases e <;> simp [retryOn]

/-- Witness for C1: a provider that always rate-limits is retried the full
10 attempts and the final error is re-raised; a provider failing with an
unrelated error class propagates it on attempt 1. -/
theorem wrapper_retry_policy_witness :
    wrapper_get_embeddings
        (fun _ => (Except.error ApiError.RateLimitError : Except ApiError Nat))
      = (Except.error ApiError.RateLimitError, num_retries)
  ∧ wrapper_get_embeddings
        (fun _ => (Except.error (ApiError.OtherError "bad request")
          : Except ApiError Nat))
      = (Except.error (ApiError.OtherError "bad request"), 1) := by
  constructor
  · obtain ⟨e, he, hw⟩ :=
      (wrapper_retry_policy
        (fun _ => (Except.error ApiError.RateLimitError
          : Except ApiError Nat))).1
        (fun j hj1 hj2 => ⟨ApiError.RateLimitError, rfl, rfl⟩)
    cases he
    exact hw
  · exact (wrapper_retry_policy
      (fun _ => (Except.error (ApiError.OtherError "bad request")
        : Except ApiError Nat))).2.1 _ rfl rfl

/-- Each step of the insertion machinery preserves the sum of the number
of currently-executing index writes and the free permits. -/
lemma semStep_preserves_sum {s s' : SemState} (h : SemStep s s') :
    countInserting s'.tasks + s'.free = countInserting s.tasks + s.free := by
  cases h with
  | spawn p ts =>
      simp [countInserting, List.count_append]
  | acquire p pre post =>
      simp only [countInserting, List.count_append, List.count_cons]
      simp
      omega
  | release p pre post =>
      simp only [countInserting, List.count_append, List.count_cons]
      simp
      omega

/-- In every reachable state the executing index writes plus the free
permits equal the configured permit count. -/
lemma semReachable_sum (n : Nat) (s : SemState)
    (h : SemReachable n s) :
    countInserting s.tasks + s.free = n := by
  induction h with
  | init => simp [countInserting]
  | step hr hs ih => rw [semStep_preserves_sum hs, ih]

/-- Claim C2: with `memory_max_threads = 1` at most one `_add_doc` body
executes the index write at any time, and in general the number of
concurrently executing index writes never exceeds the configured permit
count, since every insertion task holds a semaphore permit while writing. -/
theorem semaphore_bounds_inserts (s : SemState)
    (h : SemReachable 1 s) :
    countInserting s.tasks ≤ 1
  ∧ (∀ n : Nat, ∀ s' : SemState, SemReachable n s' →
      countInserting s'.tasks ≤ n) := by
  constructor
  · have := semReachable_sum 1 s h
    omega
  · intro n s' h'
    have := semReachable_sum n s' h'
    omega

/-- Witness for C2: the state with one executing insert, reached by
spawning one task and letting it acquire the single permit, respects the
bound. -/
theorem semaphore_bounds_inserts_witness :
    countInserting [AddDocPhase.inserting] ≤ 1 := by
  have hreach : SemReachable 1 (SemState.mk 0 [AddDocPhase.inserting]) :=
    SemReachable.step
      (SemReachable.step SemReachable.init (SemStep.spawn 1 []))
      (SemStep.acquire 0 [] [])
  exact (semaphore_bounds_inserts (SemState.mk 0 [AddDocPhase.inserting])
    hreach).1

end OpenDevin
